import Mathlib

/-!
Verification development for the NYCPS Script Builder (src/app.py).

The program matches a free-text query against a knowledge-base table by a
weighted fuzzy score (`weight_score`), keeps the rows scoring at least
`MIN_SCORE`, returns at most `ALT_COUNT` of them sorted by descending score
(`match_issue`), and substitutes the best row's fields into a fixed text
template (`render_script`).  The fuzzy string-similarity primitive
(`rapidfuzz.fuzz.token_set_ratio`) is an external black box; following the
program's documentation it is modelled as an arbitrary function
`sim : String → String → Nat` returning a 0–100 similarity score, and the
theorems that need the bound take it as a hypothesis.

Machine arithmetic: the scores are small non-negative integers, so they are
modelled as `Nat`.  Python's `int(x)` on a non-negative quotient truncates,
i.e. it is the floor, which is `Nat` division here; the sub-ulp float
round-off of CPython's division is not modelled (the similarity primitive is
already a black box returning exact integers per the program's glossary).
-/

namespace ScriptBuilder

/-- `MIN_SCORE = 70` from app.py. -/
def MIN_SCORE : Nat := 70

/-- `ALT_COUNT = 5` from app.py. -/
def ALT_COUNT : Nat := 5

/-- One cell of the knowledge-base table, i.e. one value of a pandas row.
After `read_csv(...).fillna("")` a cell is either a string, or a non-string
value (e.g. a numeric column); for a non-string we keep only what the code
can observe: its display text (Python `str(v)`, used by `format`) and its
truthiness (used by the `v or "-"` idiom). -/
inductive Cell where
  | str (s : String)
  | nonstr (rep : String) (truthy : Bool)
deriving DecidableEq, Repr

/-- A knowledge-base row: the named fields that app.py reads.  Missing
cells are empty strings after `fillna("")` (per the spec, a missing column
is also treated as the empty string, which is what `row.get(f, "")` with a
string default produces). -/
structure Row where
  title : Cell
  keywords : Cell
  kb_id : Cell
  tech_app : Cell
  category : Cell
  action : Cell
  catalog : Cell
  service_group : Cell
  probing : Cell
  steps : Cell
  urls : Cell
  required_fields : Cell
  os : Cell
  routing_group : Cell
  routing_notes : Cell
  cause_code : Cell
  resolution_code : Cell
  hours : Cell
  contacts : Cell
  kb_sources : Cell
deriving DecidableEq, Repr

/-- The `fields` dict of `weight_score`, in its (insertion) iteration
order, paired with the cell the row lookup `row.get(f, "")` yields. -/
def scoreFields (row : Row) : List (Cell × Nat) :=
  [(row.title, 3), (row.keywords, 3), (row.kb_id, 2), (row.tech_app, 2),
   (row.category, 2), (row.action, 2), (row.catalog, 1), (row.service_group, 1),
   (row.probing, 1), (row.steps, 1)]

/-- One iteration of the `for f, w in fields.items()` loop of
`weight_score`: the `isinstance(text, str) and text` test decides whether
the field contributes `sim × w` to the running total; either way the
running maximum grows by `100 × w`. -/
def fieldStep (sim : String → String → Nat) (query : String)
    (acc : Nat × Nat) (c : Cell) (w : Nat) : Nat × Nat :=
  match c with
  | .str t => if t ≠ "" then (acc.1 + sim query t * w, acc.2 + 100 * w)
              else (acc.1, acc.2 + 100 * w)
  | .nonstr _ _ => (acc.1, acc.2 + 100 * w)

/-- The `(total, max_total)` accumulators of `weight_score` after the loop. -/
def weightTotals (sim : String → String → Nat) (query : String) (row : Row) :
    Nat × Nat :=
  (scoreFields row).foldl (fun acc fw => fieldStep sim query acc fw.1 fw.2) (0, 0)

/-- `weight_score` from app.py:
`int((total / max_total) * 100) if max_total else 0`.
`int` truncates the non-negative quotient toward zero, i.e. floor, modelled
as exact `Nat` division.  CPython evaluates `(total / max_total) * 100` in
IEEE-754 binary64; `pyFloatScore` below models that float pipeline exactly,
and the two agree at every total except 522, 1026 and 1044 (out of
0..1800), where the float round-off falls just below the integer quotient
and the program returns one less than this exact floor (proved in
`pyFloatScore_eq_floor_except`). -/
def weight_score (sim : String → String → Nat) (query : String) (row : Row) :
    Nat :=
  let t := weightTotals sim query row
  if t.2 ≠ 0 then t.1 * 100 / t.2 else 0

/-- The list-comprehension phase of `match_issue`: iterate the rows with
their positional index (`kb_df.iterrows()` over a fresh `read_csv` frame
yields the 0-based range index) and keep `(idx, score)` when
`score >= MIN_SCORE`. -/
def scoredAux (sim : String → String → Nat) (query : String) :
    Nat → List Row → List (Nat × Nat)
  | _, [] => []
  | i, r :: rs =>
    let score := weight_score sim query r
    if MIN_SCORE ≤ score then (i, score) :: scoredAux sim query (i + 1) rs
    else scoredAux sim query (i + 1) rs

/-- All `(index, score)` pairs at or above the threshold, in row order. -/
def scoredOf (sim : String → String → Nat) (query : String) (kb : List Row) :
    List (Nat × Nat) :=
  scoredAux sim query 0 kb

/-- Insert one pair into a list already sorted by descending score, after
every element whose score is at least its own.  Folding this over the list
is a stable descending sort; Python's `scored.sort(key=lambda x: x[1],
reverse=True)` is also a stable descending sort on the same key, and a
stable sort's output is uniquely determined by key order and stability, so
the two agree. -/
def insertDesc (x : Nat × Nat) : List (Nat × Nat) → List (Nat × Nat)
  | [] => [x]
  | y :: ys => if x.2 ≤ y.2 then y :: insertDesc x ys else x :: y :: ys

/-- Stable sort by descending score (see `insertDesc`). -/
def sortDesc (l : List (Nat × Nat)) : List (Nat × Nat) :=
  l.foldl (fun acc x => insertDesc x acc) []

/-- `match_issue` from app.py: score all rows, keep those `>= MIN_SCORE`,
sort by descending score (stably), return the first `ALT_COUNT`.
(`scored[:ALT_COUNT] if scored else []` equals `scored[:ALT_COUNT]`:
slicing the empty list is the empty list.) -/
def match_issue (sim : String → String → Nat) (query : String)
    (kb : List Row) : List (Nat × Nat) :=
  (sortDesc (scoredOf sim query kb)).take ALT_COUNT

/-! ### The renderer: `render_script` and the fixed template -/

/-- The whitespace set of Python's `str.strip()` with no argument
(restricted to ASCII; the additional Unicode space code points do not occur
in the claims). -/
def pyWS (c : Char) : Bool :=
  c = ' ' || c = '\t' || c = '\n' || c = '\r' || c = '\x0b' || c = '\x0c'

/-- Drop leading `pyWS` characters. -/
def trimLeftCh : List Char → List Char
  | [] => []
  | c :: cs => if pyWS c then trimLeftCh cs else c :: cs

/-- Python's `s.strip()`: drop leading and trailing whitespace. -/
def pyStrip (s : String) : String :=
  ⟨(trimLeftCh (trimLeftCh s.data.reverse).reverse)⟩

/-- Python's `s.replace(";", repl)` at the character level: `;` is a
single-character pattern, so every occurrence is replaced independently. -/
def replaceSemiChars (repl : List Char) : List Char → List Char
  | [] => []
  | c :: cs => if c = ';' then repl ++ replaceSemiChars repl cs
               else c :: replaceSemiChars repl cs

/-- Python's `s.replace(";", repl, 1)`: only the first `;` is replaced. -/
def replaceFirstSemiChars (repl : List Char) : List Char → List Char
  | [] => []
  | c :: cs => if c = ';' then repl ++ cs else c :: replaceFirstSemiChars repl cs

/-- String wrapper for `replaceSemiChars`. -/
def replaceSemi (s repl : String) : String :=
  ⟨replaceSemiChars repl.data s.data⟩

/-- String wrapper for `replaceFirstSemiChars`. -/
def replaceFirstSemi (s repl : String) : String :=
  ⟨replaceFirstSemiChars repl.data s.data⟩

/-- `"- " + s.replace(";", "\n- ") if s else "-"`, the block built by
`render_script` for the `probing`, `urls` and `required_fields` fields
(the stripped field text is passed in). -/
def dashBlock (s : String) : String :=
  if s ≠ "" then "- " ++ replaceSemi s "\n- " else "-"

/-- The steps block of `render_script`:
`"1) " + steps.replace(";", "\n2) ", 1).replace("\n2) ", "\n2) ").replace(";", "\n• ") if steps else "-"`.
The middle `.replace("\n2) ", "\n2) ")` replaces a string by itself and is
the identity, so it is dropped here: the first `;` becomes `"\n2) "` and
every later `;` becomes `"\n• "` (`•` is `•`). -/
def stepsBlock (s : String) : String :=
  if s ≠ "" then "1) " ++ replaceSemi (replaceFirstSemi s "\n2) ") "\n• "
  else "-"

/-- Python's `s or d` for a string `s`: the empty string is falsy. -/
def pyOr (s d : String) : String :=
  if s = "" then d else s

/-- `row.get(f, d) or d` for a template field: an empty string (and a falsy
non-string) renders as the default `d`; a truthy non-string renders as its
`str()` text, which `format` would insert. -/
def cellOr (c : Cell) (d : String) : String :=
  match c with
  | .str s => if s = "" then d else s
  | .nonstr rep t => if t then rep else d

/-- `row.get(f, "").strip()` for the four list-valued fields: calling
`.strip()` on a non-string raises, so the non-string case is `none`. -/
def cellStrip : Cell → Option String
  | .str s => some (pyStrip s)
  | .nonstr _ _ => none

/-- `SCRIPT_TEMPLATE.format(...)`: the template of app.py (after the
trailing `.strip()` of the source literal) with its nineteen placeholders
instantiated, in template order.  Python's `format` substitutes in a single
pass, which is exactly this concatenation.  `—` is the em dash and
`‑` the non-breaking hyphen of the source file. -/
def scriptText (agent_name catalog service_group category action tech_app
    os probing_block steps_block urls_block routing_group routing_notes
    required_fields_block cause_code resolution_code hours contacts
    kb_sources ticket_number : String) : String :=
  "[GREETING]\nThank you for calling NYCPS Service Desk. My name is "
  ++ agent_name
  ++ ". Are you calling for a new issue or an existing ticket?\n\n[VERIFICATION — DOE 5‑Point]\n1) Full Name  2) DOE Email  3) Title  4) School DBN / Central Location  5) Callback #\n\n[CLASSIFICATION — 4 Levels]\nCatalog: "
  ++ catalog
  ++ "\nService Group: "
  ++ service_group
  ++ "\nCategory: "
  ++ category
  ++ "\nAction: "
  ++ action
  ++ "\n\n[TECHNOLOGY]\nTechnology/Application: "
  ++ tech_app
  ++ "\nOS: "
  ++ os
  ++ "\n\n[WHAT TO ASK (Probing)]\n"
  ++ probing_block
  ++ "\n\n[WHAT TO SAY / DO (Resolution Steps)]\n"
  ++ steps_block
  ++ "\n\n[URLS / FORMS]\n"
  ++ urls_block
  ++ "\n\n[ESCALATION / ROUTING]\n- Route to: "
  ++ routing_group
  ++ "\n- Routing Notes: "
  ++ routing_notes
  ++ "\n\n[REQUIRED DATA TO COLLECT]\n"
  ++ required_fields_block
  ++ "\n\n[CAUSE / RESOLUTION CODES]\n- Cause Code: "
  ++ cause_code
  ++ "\n- Resolution Code: "
  ++ resolution_code
  ++ "\n\n[HOURS / SCHEDULE]\n"
  ++ hours
  ++ "\n\n[CONTACTS]\n"
  ++ contacts
  ++ "\n\n[SOURCES]\n"
  ++ kb_sources
  ++ "\n\n[CLOSING]\nFor your reference, the ticket number is "
  ++ ticket_number
  ++ ". Thank you for calling and have a great day."

/-- `render_script` from app.py.  The four semicolon-list fields are
stripped (raising, hence `none`, on a non-string); the remaining fields use
the `row.get(f, d) or d` placeholder idiom; everything is substituted into
the fixed template. -/
def render_script (row : Row) (agent_name ticket_number : String) :
    Option String := do
  let probing ← cellStrip row.probing
  let steps ← cellStrip row.steps
  let urls ← cellStrip row.urls
  let required_fields ← cellStrip row.required_fields
  some (scriptText
    (pyOr agent_name "[Your Name]")
    (cellOr row.catalog "-")
    (cellOr row.service_group "-")
    (cellOr row.category "-")
    (cellOr row.action "-")
    (cellOr row.tech_app "-")
    (cellOr row.os "Any")
    (dashBlock probing)
    (stepsBlock steps)
    (dashBlock urls)
    (cellOr row.routing_group "-")
    (cellOr row.routing_notes "-")
    (dashBlock required_fields)
    (cellOr row.cause_code "-")
    (cellOr row.resolution_code "-")
    (cellOr row.hours "-")
    (cellOr row.contacts "-")
    (cellOr row.kb_sources "-")
    (pyOr ticket_number "[Ticket #]"))

/-! ### The button handler of `main` -/

/-- The four observable outcomes of the `Build Script` button handler of
`main` (app.py lines 154–190): the missing-upload error, the empty-query
warning, the no-strong-match error, and success with the best match, its
rendered script, and the rendered alternatives. -/
inductive Response where
  | errUpload
  | warnEmptyQuery
  | errNoMatch
  | success (best : Nat × Nat) (script : Option String)
      (alts : List ((Nat × Nat) × Option String))
deriving DecidableEq, Repr

/-- The button handler of `main`: check the upload, then reject a
whitespace-only query, then match; an empty match list is the
no-strong-match error, otherwise the best row (`kb_df.iloc[best_idx]`,
positional) is rendered and the remaining matches become alternatives. -/
def main_handler (sim : String → String → Nat) (kbFile : Option (List Row))
    (query agent_name ticket_number : String) : Response :=
  match kbFile with
  | none => .errUpload
  | some kb =>
    if pyStrip query = "" then .warnEmptyQuery
    else
      match match_issue sim query kb with
      | [] => .errNoMatch
      | best :: rest =>
        .success best
          ((kb.get? best.1).bind fun r => render_script r agent_name ticket_number)
          (rest.map fun p =>
            (p, (kb.get? p.1).bind fun r => render_script r agent_name ticket_number))

/-! ### Derived notions and concrete inputs used by the claims -/

/-- The contribution of one cell to the `total` accumulator of
`weight_score`, before weighting: the similarity for a non-empty string
cell, `0` otherwise. -/
def cellSim (sim : String → String → Nat) (query : String) (c : Cell) : Nat :=
  match c with
  | .str t => if t ≠ "" then sim query t else 0
  | .nonstr _ _ => 0

/-- The order `match_issue`'s output is claimed to satisfy: strictly
descending score, or equal score with the original (strictly smaller)
row index first — descending stable sort order. -/
def resultOrder (a b : Nat × Nat) : Prop :=
  b.2 < a.2 ∨ (a.2 = b.2 ∧ a.1 < b.1)

/-- A cell that takes the non-contributing branch of the `weight_score`
loop: an empty string or a non-string value. -/
def cellEmptyB (c : Cell) : Bool :=
  match c with
  | .str s => s == ""
  | .nonstr _ _ => true

/-- All ten scored fields of a row are empty strings or non-strings. -/
def scoredEmptyB (row : Row) : Bool :=
  cellEmptyB row.title && cellEmptyB row.keywords && cellEmptyB row.kb_id &&
  cellEmptyB row.tech_app && cellEmptyB row.category && cellEmptyB row.action &&
  cellEmptyB row.catalog && cellEmptyB row.service_group &&
  cellEmptyB row.probing && cellEmptyB row.steps

/-- Modelled from the spec: `final score = round(100 × total / max_total)`
(round half-up), the rounding the spec ascribes to `weight_score`.  Kept
separate from `weight_score`, which is translated from the code, so the two
can be compared. -/
def spec_weight_score (sim : String → String → Nat) (query : String)
    (row : Row) : Nat :=
  let t := weightTotals sim query row
  (2 * (t.1 * 100) + t.2) / (2 * t.2)

/-- Modelled from the spec: semicolon-delimited step items re-joined as a
numbered block, item `k` on its own line prefixed `k) `.  Kept separate
from `stepsBlock`, which is translated from the code, so the two can be
compared. -/
def spec_numbered_block (items : List String) : String :=
  String.intercalate "\n"
    ((items.enumFrom 1).map fun p => toString p.1 ++ ") " ++ p.2)

/-- The row all of whose cells are the empty string — a fully empty
knowledge-base row, as produced by `fillna("")` on an all-missing row. -/
def rowEmpty : Row :=
  ⟨.str "", .str "", .str "", .str "", .str "", .str "", .str "", .str "",
   .str "", .str "", .str "", .str "", .str "", .str "", .str "", .str "",
   .str "", .str "", .str "", .str ""⟩

/-- The all-placeholder script: the template rendered from `rowEmpty` with
empty agent name and ticket number. -/
def canned : String :=
  scriptText "[Your Name]" "-" "-" "-" "-" "-" "Any" "-" "-" "-" "-" "-"
    "-" "-" "-" "-" "-" "-" "[Ticket #]"

/-- The fixed section headers of `SCRIPT_TEMPLATE`, verbatim. -/
def SCRIPT_HEADERS : List String :=
  ["[GREETING]", "[VERIFICATION — DOE 5‑Point]", "[CLASSIFICATION — 4 Levels]",
   "[TECHNOLOGY]", "[WHAT TO ASK (Probing)]",
   "[WHAT TO SAY / DO (Resolution Steps)]", "[URLS / FORMS]",
   "[ESCALATION / ROUTING]", "[REQUIRED DATA TO COLLECT]",
   "[CAUSE / RESOLUTION CODES]", "[HOURS / SCHEDULE]", "[CONTACTS]",
   "[SOURCES]", "[CLOSING]"]

/-- `listPrefixOf pat l`: `pat` is a prefix of `l`. -/
def listPrefixOf : List Char → List Char → Bool
  | [], _ => true
  | _ :: _, [] => false
  | a :: as, b :: bs => a = b && listPrefixOf as bs

/-- `listContainsSub pat l`: `pat` occurs as a contiguous run in `l`. -/
def listContainsSub (pat : List Char) : List Char → Bool
  | [] => pat.isEmpty
  | c :: cs => listPrefixOf pat (c :: cs) || listContainsSub pat cs

/-- `pat` occurs verbatim as a substring of `s`. -/
def containsStr (s pat : String) : Bool :=
  listContainsSub pat.data s.data

/-- Semicolon-joined items at the character level: the inverse image of
Python's `";".join` / `.split(";")` pair. -/
def intercChar (sep : List Char) : List (List Char) → List Char
  | [] => []
  | [i] => i
  | i :: is => i ++ sep ++ intercChar sep is

/-- A similarity function that conforms to the 0–100 contract and returns
`4` against the text `"t"`: used to exhibit the truncation of
`weight_score` (score `12/18 = 0.66…` truncates to `0`, rounds to `1`). -/
def simC2 : String → String → Nat :=
  fun _ t => if t = "t" then 4 else 0

/-- A row whose only non-empty scored field is `title = "t"`. -/
def rowC2 : Row :=
  { rowEmpty with title := .str "t" }

/-- A similarity function that conforms to the 0–100 contract, is maximal
on identical strings, and also gives the broader query `"ab"` the maximal
score against every string: the behaviour `token_set_ratio` shows when the
query's token set covers the candidate's. -/
def simC5 : String → String → Nat :=
  fun q t => if q = "ab" then 100 else if q = t then 100 else 0

/-- A row with `title = keywords = "a"` and `kb_id = "b"`: its own
title/keywords text `"a"` does not reach `kb_id`, but `"ab"` does. -/
def rowC5 : Row :=
  { rowEmpty with title := .str "a", keywords := .str "a", kb_id := .str "b" }

/-- The constant maximal similarity function (conforms to the contract). -/
def sim100 : String → String → Nat :=
  fun _ _ => 100

/-- The constant zero similarity function (conforms to the contract). -/
def simZero : String → String → Nat :=
  fun _ _ => 0

/-- Round `q + r/den` (with `0 ≤ r < den`) to the nearest integer, ties to
even: the rounding mode of IEEE-754 binary64 arithmetic, applied to a
scaled significand. -/
def rne (q r den : Nat) : Nat :=
  if den < 2 * r then q + 1
  else if 2 * r < den then q
  else if q % 2 = 0 then q else q + 1

/-- The score CPython actually returns for an integer `total = t ≤ 1800`:
`int((t / 1800) * 100)` evaluated in IEEE-754 binary64.  The division
produces the correctly rounded double `m1·2^(-n)` nearest to the exact
rational `t/1800` (53-bit significand `2^52 ≤ m1 < 2^53`, round to nearest,
ties to even); the multiplication by 100 (an exact binary64 value) produces
the correctly rounded double `m2·2^(k-n)` nearest to `100·m1·2^(-n)`;
`int()` truncates toward zero.  Everything is computed here in exact
integer arithmetic on the scaled significands, so this is a faithful model
of the float pipeline, not an approximation. -/
def pyFloatScore (t : Nat) : Nat :=
  if t = 0 then 0
  else
    let n := ((List.range 70).find? fun n => 1800 * 2 ^ 52 ≤ t * 2 ^ n).getD 52
    let m1 := rne (t * 2 ^ n / 1800) (t * 2 ^ n % 1800) 1800
    let x := 100 * m1
    let k := ((List.range 10).find? fun k => x < 2 ^ 53 * 2 ^ k).getD 0
    let m2 := if k = 0 then x else rne (x / 2 ^ k) (x % 2 ^ k) (2 ^ k)
    m2 * 2 ^ k / 2 ^ n

/-! ### Lemmas about the weighted score -/

theorem fieldStep_snd (sim : String → String → Nat) (query : String)
    (acc : Nat × Nat) (c : Cell) (w : Nat) :
    (fieldStep sim query acc c w).2 = acc.2 + 100 * w := by
  cases c with
  | str s =>
    simp only [fieldStep]
    split <;> rfl
  | nonstr rep t => rfl

theorem fieldStep_fst (sim : String → String → Nat) (query : String)
    (acc : Nat × Nat) (c : Cell) (w : Nat) :
    (fieldStep sim query acc c w).1 = acc.1 + cellSim sim query c * w := by
  cases c with
  | str s =>
    simp only [fieldStep, cellSim]
    split <;> simp
  | nonstr rep t => simp [fieldStep, cellSim]

theorem cellSim_le_100 (sim : String → String → Nat) (query : String)
    (c : Cell) (hsim : ∀ a b, sim a b ≤ 100) :
    cellSim sim query c ≤ 100 := by
  cases c with
  | str s =>
    simp only [cellSim]
    split
    · exact hsim query s
    · exact Nat.zero_le _
  | nonstr rep t => exact Nat.zero_le _

/-- The `max_total` accumulator is the same `1800 = 100 × 18` for every
query and row: empty fields contribute to it as well. -/
theorem weightTotals_snd (sim : String → String → Nat) (query : String)
    (row : Row) : (weightTotals sim query row).2 = 1800 := by
  simp [weightTotals, scoreFields, List.foldl_cons, List.foldl_nil,
    fieldStep_snd]

/-- The `total` accumulator is the weighted sum of the per-field
similarities, with the weights of the `fields` dict. -/
theorem weightTotals_fst (sim : String → String → Nat) (query : String)
    (row : Row) :
    (weightTotals sim query row).1 =
      cellSim sim query row.title * 3 + cellSim sim query row.keywords * 3 +
      cellSim sim query row.kb_id * 2 + cellSim sim query row.tech_app * 2 +
      cellSim sim query row.category * 2 + cellSim sim query row.action * 2 +
      cellSim sim query row.catalog * 1 +
      cellSim sim query row.service_group * 1 +
      cellSim sim query row.probing * 1 + cellSim sim query row.steps * 1 := by
  simp [weightTotals, scoreFields, List.foldl_cons, List.foldl_nil,
    fieldStep_fst]

/-- `weight_score` is the truncated quotient with the constant denominator. -/
theorem weight_score_eq (sim : String → String → Nat) (query : String)
    (row : Row) :
    weight_score sim query row = (weightTotals sim query row).1 * 100 / 1800 := by
  simp [weight_score, weightTotals_snd]

theorem cellSim_of_empty (sim : String → String → Nat) (query : String)
    (c : Cell) (h : cellEmptyB c = true) : cellSim sim query c = 0 := by
  cases c with
  | str s =>
    simp only [cellEmptyB, beq_iff_eq] at h
    simp [cellSim, h]
  | nonstr rep t => rfl

theorem weightTotals_fst_le (sim : String → String → Nat)
    (query : String) (row : Row) (hsim : ∀ a b, sim a b ≤ 100) :
    (weightTotals sim query row).1 ≤ 1800 := by
  rw [weightTotals_fst]
  have k1 := cellSim_le_100 sim query row.title hsim
  have k2 := cellSim_le_100 sim query row.keywords hsim
  have k3 := cellSim_le_100 sim query row.kb_id hsim
  have k4 := cellSim_le_100 sim query row.tech_app hsim
  have k5 := cellSim_le_100 sim query row.category hsim
  have k6 := cellSim_le_100 sim query row.action hsim
  have k7 := cellSim_le_100 sim query row.catalog hsim
  have k8 := cellSim_le_100 sim query row.service_group hsim
  have k9 := cellSim_le_100 sim query row.probing hsim
  have k10 := cellSim_le_100 sim query row.steps hsim
  omega

set_option maxRecDepth 10000

theorem pyFloatScore_chunk0 : ∀ r, r < 100 →
    pyFloatScore (100 * 0 + r) =
      (if 100 * 0 + r = 522 ∨ 100 * 0 + r = 1026 ∨ 100 * 0 + r = 1044
       then (100 * 0 + r) * 100 / 1800 - 1
       else (100 * 0 + r) * 100 / 1800) := by
  decide
theorem pyFloatScore_chunk1 : ∀ r, r < 100 →
    pyFloatScore (100 * 1 + r) =
      (if 100 * 1 + r = 522 ∨ 100 * 1 + r = 1026 ∨ 100 * 1 + r = 1044
       then (100 * 1 + r) * 100 / 1800 - 1
       else (100 * 1 + r) * 100 / 1800) := by
  decide
theorem pyFloatScore_chunk2 : ∀ r, r < 100 →
    pyFloatScore (100 * 2 + r) =
      (if 100 * 2 + r = 522 ∨ 100 * 2 + r = 1026 ∨ 100 * 2 + r = 1044
       then (100 * 2 + r) * 100 / 1800 - 1
       else (100 * 2 + r) * 100 / 1800) := by
  decide
theorem pyFloatScore_chunk3 : ∀ r, r < 100 →
    pyFloatScore (100 * 3 + r) =
      (if 100 * 3 + r = 522 ∨ 100 * 3 + r = 1026 ∨ 100 * 3 + r = 1044
       then (100 * 3 + r) * 100 / 1800 - 1
       else (100 * 3 + r) * 100 / 1800) := by
  decide
theorem pyFloatScore_chunk4 : ∀ r, r < 100 →
    pyFloatScore (100 * 4 + r) =
      (if 100 * 4 + r = 522 ∨ 100 * 4 + r = 1026 ∨ 100 * 4 + r = 1044
       then (100 * 4 + r) * 100 / 1800 - 1
       else (100 * 4 + r) * 100 / 1800) := by
  decide
theorem pyFloatScore_chunk5 : ∀ r, r < 100 →
    pyFloatScore (100 * 5 + r) =
      (if 100 * 5 + r = 522 ∨ 100 * 5 + r = 1026 ∨ 100 * 5 + r = 1044
       then (100 * 5 + r) * 100 / 1800 - 1
       else (100 * 5 + r) * 100 / 1800) := by
  decide
theorem pyFloatScore_chunk6 : ∀ r, r < 100 →
    pyFloatScore (100 * 6 + r) =
      (if 100 * 6 + r = 522 ∨ 100 * 6 + r = 1026 ∨ 100 * 6 + r = 1044
       then (100 * 6 + r) * 100 / 1800 - 1
       else (100 * 6 + r) * 100 / 1800) := by
  decide
theorem pyFloatScore_chunk7 : ∀ r, r < 100 →
    pyFloatScore (100 * 7 + r) =
      (if 100 * 7 + r = 522 ∨ 100 * 7 + r = 1026 ∨ 100 * 7 + r = 1044
       then (100 * 7 + r) * 100 / 1800 - 1
       else (100 * 7 + r) * 100 / 1800) := by
  decide
theorem pyFloatScore_chunk8 : ∀ r, r < 100 →
    pyFloatScore (100 * 8 + r) =
      (if 100 * 8 + r = 522 ∨ 100 * 8 + r = 1026 ∨ 100 * 8 + r = 1044
       then (100 * 8 + r) * 100 / 1800 - 1
       else (100 * 8 + r) * 100 / 1800) := by
  decide
theorem pyFloatScore_chunk9 : ∀ r, r < 100 →
    pyFloatScore (100 * 9 + r) =
      (if 100 * 9 + r = 522 ∨ 100 * 9 + r = 1026 ∨ 100 * 9 + r = 1044
       then (100 * 9 + r) * 100 / 1800 - 1
       else (100 * 9 + r) * 100 / 1800) := by
  decide
theorem pyFloatScore_chunk10 : ∀ r, r < 100 →
    pyFloatScore (100 * 10 + r) =
      (if 100 * 10 + r = 522 ∨ 100 * 10 + r = 1026 ∨ 100 * 10 + r = 1044
       then (100 * 10 + r) * 100 / 1800 - 1
       else (100 * 10 + r) * 100 / 1800) := by
  decide
theorem pyFloatScore_chunk11 : ∀ r, r < 100 →
    pyFloatScore (100 * 11 + r) =
      (if 100 * 11 + r = 522 ∨ 100 * 11 + r = 1026 ∨ 100 * 11 + r = 1044
       then (100 * 11 + r) * 100 / 1800 - 1
       else (100 * 11 + r) * 100 / 1800) := by
  decide
theorem pyFloatScore_chunk12 : ∀ r, r < 100 →
    pyFloatScore (100 * 12 + r) =
      (if 100 * 12 + r = 522 ∨ 100 * 12 + r = 1026 ∨ 100 * 12 + r = 1044
       then (100 * 12 + r) * 100 / 1800 - 1
       else (100 * 12 + r) * 100 / 1800) := by
  decide
theorem pyFloatScore_chunk13 : ∀ r, r < 100 →
    pyFloatScore (100 * 13 + r) =
      (if 100 * 13 + r = 522 ∨ 100 * 13 + r = 1026 ∨ 100 * 13 + r = 1044
       then (100 * 13 + r) * 100 / 1800 - 1
       else (100 * 13 + r) * 100 / 1800) := by
  decide
theorem pyFloatScore_chunk14 : ∀ r, r < 100 →
    pyFloatScore (100 * 14 + r) =
      (if 100 * 14 + r = 522 ∨ 100 * 14 + r = 1026 ∨ 100 * 14 + r = 1044
       then (100 * 14 + r) * 100 / 1800 - 1
       else (100 * 14 + r) * 100 / 1800) := by
  decide
theorem pyFloatScore_chunk15 : ∀ r, r < 100 →
    pyFloatScore (100 * 15 + r) =
      (if 100 * 15 + r = 522 ∨ 100 * 15 + r = 1026 ∨ 100 * 15 + r = 1044
       then (100 * 15 + r) * 100 / 1800 - 1
       else (100 * 15 + r) * 100 / 1800) := by
  decide
theorem pyFloatScore_chunk16 : ∀ r, r < 100 →
    pyFloatScore (100 * 16 + r) =
      (if 100 * 16 + r = 522 ∨ 100 * 16 + r = 1026 ∨ 100 * 16 + r = 1044
       then (100 * 16 + r) * 100 / 1800 - 1
       else (100 * 16 + r) * 100 / 1800) := by
  decide
theorem pyFloatScore_chunk17 : ∀ r, r < 100 →
    pyFloatScore (100 * 17 + r) =
      (if 100 * 17 + r = 522 ∨ 100 * 17 + r = 1026 ∨ 100 * 17 + r = 1044
       then (100 * 17 + r) * 100 / 1800 - 1
       else (100 * 17 + r) * 100 / 1800) := by
  decide

theorem pyFloatScore_top :
    pyFloatScore 1800 =
      (if 1800 = 522 ∨ 1800 = 1026 ∨ 1800 = 1044
       then 1800 * 100 / 1800 - 1 else 1800 * 100 / 1800) := by
  decide

/-- Exhaustive characterisation of the binary64 pipeline against the exact
floor: CPython's `int((t / 1800) * 100)` equals `t * 100 / 1800` for every
total `t ≤ 1800` except 522, 1026 and 1044, where the product rounds to
just below the exact integer quotient and truncation loses 1. -/
theorem pyFloatScore_eq_floor_except :
    ∀ t, t ≤ 1800 →
    pyFloatScore t =
      (if t = 522 ∨ t = 1026 ∨ t = 1044
       then t * 100 / 1800 - 1 else t * 100 / 1800) := by
  intro t ht
  rcases Nat.lt_or_ge t 1800 with hlt | hge
  · have e : 100 * (t / 100) + t % 100 = t := Nat.div_add_mod t 100
    have hr : t % 100 < 100 := Nat.mod_lt _ (by omega)
    have hk : t / 100 = 0 ∨ t / 100 = 1 ∨ t / 100 = 2 ∨ t / 100 = 3 ∨
        t / 100 = 4 ∨ t / 100 = 5 ∨ t / 100 = 6 ∨ t / 100 = 7 ∨
        t / 100 = 8 ∨ t / 100 = 9 ∨ t / 100 = 10 ∨ t / 100 = 11 ∨
        t / 100 = 12 ∨ t / 100 = 13 ∨ t / 100 = 14 ∨ t / 100 = 15 ∨
        t / 100 = 16 ∨ t / 100 = 17 := by omega
    rw [← e]
    rcases hk with h|h|h|h|h|h|h|h|h|h|h|h|h|h|h|h|h|h <;> rw [h] <;>
      first
      | exact pyFloatScore_chunk0 _ hr
      | exact pyFloatScore_chunk1 _ hr
      | exact pyFloatScore_chunk2 _ hr
      | exact pyFloatScore_chunk3 _ hr
      | exact pyFloatScore_chunk4 _ hr
      | exact pyFloatScore_chunk5 _ hr
      | exact pyFloatScore_chunk6 _ hr
      | exact pyFloatScore_chunk7 _ hr
      | exact pyFloatScore_chunk8 _ hr
      | exact pyFloatScore_chunk9 _ hr
      | exact pyFloatScore_chunk10 _ hr
      | exact pyFloatScore_chunk11 _ hr
      | exact pyFloatScore_chunk12 _ hr
      | exact pyFloatScore_chunk13 _ hr
      | exact pyFloatScore_chunk14 _ hr
      | exact pyFloatScore_chunk15 _ hr
      | exact pyFloatScore_chunk16 _ hr
      | exact pyFloatScore_chunk17 _ hr
  · have ht' : t = 1800 := by omega
    subst ht'
    exact pyFloatScore_top

/-! ### Lemmas about the matching pipeline -/

theorem scoredAux_score_ge (sim : String → String → Nat) (query : String) :
    ∀ (l : List Row) (i : Nat) (p : Nat × Nat),
    p ∈ scoredAux sim query i l → MIN_SCORE ≤ p.2 := by
  intro l
  induction l with
  | nil => intro i p hp; simp [scoredAux] at hp
  | cons r rs ih =>
    intro i p hp
    simp only [scoredAux] at hp
    split at hp
    · rcases List.mem_cons.mp hp with rfl | hp'
      · assumption
      · exact ih _ _ hp'
    · exact ih _ _ hp

theorem scoredAux_fst_lb (sim : String → String → Nat) (query : String) :
    ∀ (l : List Row) (i : Nat) (p : Nat × Nat),
    p ∈ scoredAux sim query i l → i ≤ p.1 := by
  intro l
  induction l with
  | nil => intro i p hp; simp [scoredAux] at hp
  | cons r rs ih =>
    intro i p hp
    simp only [scoredAux] at hp
    split at hp
    · rcases List.mem_cons.mp hp with rfl | hp'
      · exact Nat.le_refl _
      · exact Nat.le_of_succ_le (ih _ _ hp')
    · exact Nat.le_of_succ_le (ih _ _ hp)

/-- The filtered `(index, score)` list carries strictly increasing row
indices: this is the original row order the stable sort preserves. -/
theorem scoredAux_pairwise (sim : String → String → Nat) (query : String) :
    ∀ (l : List Row) (i : Nat),
    (scoredAux sim query i l).Pairwise (fun a b => a.1 < b.1) := by
  intro l
  induction l with
  | nil => intro i; simp [scoredAux]
  | cons r rs ih =>
    intro i
    simp only [scoredAux]
    split
    · refine List.pairwise_cons.mpr ⟨fun p hp => ?_, ih _⟩
      exact Nat.lt_of_succ_le (scoredAux_fst_lb sim query rs (i + 1) p hp)
    · exact ih _

/-- Every filtered entry is the index and score of an actual row. -/
theorem scoredAux_mem_get (sim : String → String → Nat) (query : String) :
    ∀ (l : List Row) (i : Nat) (p : Nat × Nat),
    p ∈ scoredAux sim query i l →
    ∃ k r, l.get? k = some r ∧ p.1 = i + k ∧ p.2 = weight_score sim query r := by
  intro l
  induction l with
  | nil => intro i p hp; simp [scoredAux] at hp
  | cons r rs ih =>
    intro i p hp
    simp only [scoredAux] at hp
    have step : p ∈ scoredAux sim query (i + 1) rs →
        ∃ k r', (r :: rs).get? k = some r' ∧ p.1 = i + k ∧
          p.2 = weight_score sim query r' := by
      intro hp'
      obtain ⟨k, r', hk, h1, h2⟩ := ih (i + 1) p hp'
      exact ⟨k + 1, r', by simpa using hk, by omega, h2⟩
    split at hp
    · rcases List.mem_cons.mp hp with rfl | hp'
      · exact ⟨0, r, rfl, by omega, rfl⟩
      · exact step hp'
    · exact step hp

/-- When every row scores below the threshold, the filter keeps nothing. -/
theorem scoredAux_eq_nil (sim : String → String → Nat) (query : String) :
    ∀ (l : List Row) (i : Nat),
    (∀ r ∈ l, weight_score sim query r < MIN_SCORE) →
    scoredAux sim query i l = [] := by
  intro l
  induction l with
  | nil => intro i _; rfl
  | cons r rs ih =>
    intro i h
    have hr := h r (List.mem_cons_self r rs)
    simp only [scoredAux]
    rw [if_neg (by omega)]
    exact ih _ fun r' hr' => h r' (List.mem_cons_of_mem _ hr')

theorem mem_insertDesc {x z : Nat × Nat} :
    ∀ {l : List (Nat × Nat)}, z ∈ insertDesc x l ↔ z = x ∨ z ∈ l := by
  intro l
  induction l with
  | nil => simp [insertDesc]
  | cons y ys ih =>
    simp only [insertDesc]
    split
    · simp only [List.mem_cons, ih]
      tauto
    · simp only [List.mem_cons, ih]

/-- Inserting an element whose index exceeds every index already present
preserves the descending-score, ties-by-index pairwise order. -/
theorem insertDesc_pairwise {x : Nat × Nat} :
    ∀ {l : List (Nat × Nat)}, l.Pairwise resultOrder →
    (∀ y ∈ l, y.1 < x.1) → (insertDesc x l).Pairwise resultOrder := by
  intro l
  induction l with
  | nil => intro _ _; simp [insertDesc]
  | cons y ys ih =>
    intro hp hlt
    obtain ⟨hy, hys⟩ := List.pairwise_cons.mp hp
    simp only [insertDesc]
    split
    · refine List.pairwise_cons.mpr ⟨fun z hz => ?_, ?_⟩
      · rcases mem_insertDesc.mp hz with rfl | hzys
        · rcases Nat.eq_or_lt_of_le (by assumption : z.2 ≤ y.2) with heq | hlt2
          · exact Or.inr ⟨heq.symm, hlt y (List.mem_cons_self y ys)⟩
          · exact Or.inl hlt2
        · exact hy z hzys
      · exact ih hys fun y' hy' => hlt y' (List.mem_cons_of_mem _ hy')
    · refine List.pairwise_cons.mpr ⟨fun z hz => ?_, hp⟩
      rcases List.mem_cons.mp hz with rfl | hzys
      · exact Or.inl (Nat.lt_of_not_le (by assumption))
      · refine Or.inl ?_
        have := hy z hzys
        rcases this with h1 | ⟨h1, _⟩
        · omega
        · have : ¬ x.2 ≤ y.2 := by assumption
          omega

theorem foldl_insertDesc_pairwise :
    ∀ (l acc : List (Nat × Nat)),
    l.Pairwise (fun a b : Nat × Nat => a.1 < b.1) →
    acc.Pairwise resultOrder →
    (∀ x ∈ l, ∀ y ∈ acc, y.1 < x.1) →
    (l.foldl (fun A x => insertDesc x A) acc).Pairwise resultOrder := by
  intro l
  induction l with
  | nil => intro acc _ ha _; simpa using ha
  | cons x xs ih =>
    intro acc hl ha hx
    obtain ⟨hxhead, hxtail⟩ := List.pairwise_cons.mp hl
    rw [List.foldl_cons]
    refine ih _ hxtail
      (insertDesc_pairwise ha fun y hy => hx x (List.mem_cons_self x xs) y hy)
      fun z hz y hy => ?_
    rcases mem_insertDesc.mp hy with rfl | hya
    · exact hxhead z hz
    · exact hx z (List.mem_cons_of_mem _ hz) y hya

theorem mem_foldl_insertDesc :
    ∀ (l acc : List (Nat × Nat)) (z : Nat × Nat),
    z ∈ l.foldl (fun A x => insertDesc x A) acc → z ∈ acc ∨ z ∈ l := by
  intro l
  induction l with
  | nil => intro acc z hz; exact Or.inl hz
  | cons x xs ih =>
    intro acc z hz
    rw [List.foldl_cons] at hz
    rcases ih _ z hz with hz' | hz'
    · rcases mem_insertDesc.mp hz' with rfl | hz''
      · exact Or.inr (List.mem_cons_self _ _)
      · exact Or.inl hz''
    · exact Or.inr (List.mem_cons_of_mem _ hz')

theorem mem_sortDesc {l : List (Nat × Nat)} {z : Nat × Nat}
    (hz : z ∈ sortDesc l) : z ∈ l := by
  rcases mem_foldl_insertDesc l [] z hz with h | h
  · simp at h
  · exact h

/-- The stable descending sort of a strictly-increasing-index list is
pairwise-ordered by descending score with ties in index order. -/
theorem sortDesc_pairwise {l : List (Nat × Nat)}
    (hl : l.Pairwise (fun a b : Nat × Nat => a.1 < b.1)) :
    (sortDesc l).Pairwise resultOrder :=
  foldl_insertDesc_pairwise l [] hl (List.Pairwise.nil) (by simp)

/-! ### Lemmas about the semicolon-list rendering -/

theorem replaceSemiChars_append (repl : List Char) :
    ∀ (a b : List Char), ';' ∉ a →
    replaceSemiChars repl (a ++ b) = a ++ replaceSemiChars repl b := by
  intro a
  induction a with
  | nil => intro b _; rfl
  | cons c cs ih =>
    intro b h
    have hc : ¬ c = ';' := by
      intro hc
      exact h (by rw [hc]; exact List.mem_cons_self _ _)
    have hcs : ';' ∉ cs := fun hm => h (List.mem_cons_of_mem _ hm)
    simp [replaceSemiChars, hc, ih _ hcs]

theorem replaceSemiChars_self (repl : List Char) (a : List Char)
    (h : ';' ∉ a) : replaceSemiChars repl a = a := by
  have := replaceSemiChars_append repl a [] h
  simpa [replaceSemiChars] using this

theorem replaceFirstSemiChars_append (repl : List Char) :
    ∀ (a b : List Char), ';' ∉ a →
    replaceFirstSemiChars repl (a ++ ';' :: b) = a ++ repl ++ b := by
  intro a
  induction a with
  | nil => intro b _; simp [replaceFirstSemiChars]
  | cons c cs ih =>
    intro b h
    have hc : ¬ c = ';' := by
      intro hc
      exact h (by rw [hc]; exact List.mem_cons_self _ _)
    have hcs : ';' ∉ cs := fun hm => h (List.mem_cons_of_mem _ hm)
    simp [replaceFirstSemiChars, hc, ih _ hcs]

theorem replaceFirstSemiChars_self (repl : List Char) :
    ∀ (a : List Char), ';' ∉ a → replaceFirstSemiChars repl a = a := by
  intro a
  induction a with
  | nil => intro _; rfl
  | cons c cs ih =>
    intro h
    have hc : ¬ c = ';' := by
      intro hc
      exact h (by rw [hc]; exact List.mem_cons_self _ _)
    have hcs : ';' ∉ cs := fun hm => h (List.mem_cons_of_mem _ hm)
    simp [replaceFirstSemiChars, hc, ih hcs]

/-- Replacing every `;` in a `;`-joined list of `;`-free items re-joins
the same items with the replacement text: each item lands between two
separators. -/
theorem replaceSemiChars_interc (repl : List Char) :
    ∀ (items : List (List Char)), (∀ j ∈ items, ';' ∉ j) →
    replaceSemiChars repl (intercChar [';'] items) = intercChar repl items := by
  intro items
  induction items with
  | nil => intro _; rfl
  | cons i is ih =>
    intro h
    have hi : ';' ∉ i := h i (List.mem_cons_self _ _)
    have his : ∀ j ∈ is, ';' ∉ j := fun j hj => h j (List.mem_cons_of_mem _ hj)
    cases is with
    | nil => exact replaceSemiChars_self repl i hi
    | cons j js =>
      have e1 : intercChar [';'] (i :: j :: js) =
          i ++ ';' :: intercChar [';'] (j :: js) := by
        simp [intercChar]
      have e2 : intercChar repl (i :: j :: js) =
          i ++ repl ++ intercChar repl (j :: js) := by
        simp [intercChar]
      rw [e1, replaceSemiChars_append repl i _ hi, e2]
      have e3 : replaceSemiChars repl (';' :: intercChar [';'] (j :: js)) =
          repl ++ replaceSemiChars repl (intercChar [';'] (j :: js)) := by
        simp [replaceSemiChars]
      rw [e3, ih his, List.append_assoc]

/-- `dashBlock` on a non-empty string, at the character level. -/
theorem dashBlock_mk (l : List Char) (h : l ≠ []) :
    dashBlock ⟨l⟩ = ⟨"- ".data ++ replaceSemiChars "\n- ".data l⟩ := by
  have h' : (⟨l⟩ : String) ≠ "" := fun hh => h (congrArg String.data hh)
  rw [dashBlock, if_pos h']
  rfl

/-- `stepsBlock` on a non-empty string, at the character level. -/
theorem stepsBlock_mk (l : List Char) (h : l ≠ []) :
    stepsBlock ⟨l⟩ =
      ⟨"1) ".data ++
        replaceSemiChars "\n• ".data
          (replaceFirstSemiChars "\n2) ".data l)⟩ := by
  have h' : (⟨l⟩ : String) ≠ "" := fun hh => h (congrArg String.data hh)
  rw [stepsBlock, if_pos h']
  rfl

/-! ### The claims -/

/-- C1: for every query and every table, `match_issue` returns at most
`ALT_COUNT = 5` entries, every returned score is at least
`MIN_SCORE = 70`, and the result is sorted by strictly descending score
with equal scores in original row order (stable sort). -/
theorem claim_C1_match_invariants (sim : String → String → Nat)
    (query : String) (kb : List Row) :
    (match_issue sim query kb).length ≤ ALT_COUNT ∧
    (∀ p ∈ match_issue sim query kb, MIN_SCORE ≤ p.2) ∧
    (match_issue sim query kb).Pairwise resultOrder := by
  refine ⟨?_, ?_, ?_⟩
  · rw [match_issue, List.length_take]
    exact Nat.min_le_left _ _
  · intro p hp
    have hp1 : p ∈ sortDesc (scoredOf sim query kb) :=
      (List.take_sublist _ _).subset hp
    exact scoredAux_score_ge sim query kb 0 p (mem_sortDesc hp1)
  · exact List.Pairwise.sublist (List.take_sublist _ _)
      (sortDesc_pairwise (scoredAux_pairwise sim query kb 0))

/-- Witness for C1: the invariants at a concrete query and table. -/
theorem claim_C1_witness :
    (match_issue simZero "q" [rowEmpty]).length ≤ ALT_COUNT ∧
    (∀ p ∈ match_issue simZero "q" [rowEmpty], MIN_SCORE ≤ p.2) ∧
    (match_issue simZero "q" [rowEmpty]).Pairwise resultOrder :=
  claim_C1_match_invariants simZero "q" [rowEmpty]

/-- C2 counterexample: with a conforming similarity (`simC2` returns the
integer `4` against the title text `"t"`), the row whose only non-empty
scored field is that title has `total = 12`, `max_total = 1800`, so
`100 × total / max_total = 2/3`: the program — both as the exact floor
model `weight_score` and as the exact binary64 model `pyFloatScore` —
returns `0`, while the claimed `round` gives `1`.  So the score does not
equal the claimed rounded value. -/
theorem claim_C2_counterexample :
    weight_score simC2 "q" rowC2 = 0 ∧
    pyFloatScore ((weightTotals simC2 "q" rowC2).1) = 0 ∧
    spec_weight_score simC2 "q" rowC2 = 1 ∧
    ¬ weight_score simC2 "q" rowC2 = spec_weight_score simC2 "q" rowC2 ∧
    ¬ pyFloatScore ((weightTotals simC2 "q" rowC2).1) =
        spec_weight_score simC2 "q" rowC2 := by
  decide

/-- C2 amended: the weighted score the program returns is the binary64
evaluation of `int((total / max_total) * 100)`, where `total` is the
weighted similarity sum — weights title=3, keywords=3, kb_id=2, tech_app=2,
category=2, action=2, catalog=1, service_group=1, probing=1, steps=1, an
empty field contributing 0 — and `max_total = 1800` counts every field
including the empty ones.  The truncated float equals the exact floor
`weight_score` (never a rounding) at every total except 522, 1026 and
1044, where the float round-off makes the program return one less than the
exact floor. -/
theorem claim_C2_amended_float_truncation (sim : String → String → Nat)
    (query : String) (row : Row) (hsim : ∀ a b, sim a b ≤ 100) :
    (weightTotals sim query row).1 =
      cellSim sim query row.title * 3 + cellSim sim query row.keywords * 3 +
      cellSim sim query row.kb_id * 2 + cellSim sim query row.tech_app * 2 +
      cellSim sim query row.category * 2 + cellSim sim query row.action * 2 +
      cellSim sim query row.catalog * 1 +
      cellSim sim query row.service_group * 1 +
      cellSim sim query row.probing * 1 + cellSim sim query row.steps * 1 ∧
    (weightTotals sim query row).2 = 1800 ∧
    weight_score sim query row = (weightTotals sim query row).1 * 100 / 1800 ∧
    pyFloatScore ((weightTotals sim query row).1) =
      (if (weightTotals sim query row).1 = 522 ∨
          (weightTotals sim query row).1 = 1026 ∨
          (weightTotals sim query row).1 = 1044
       then weight_score sim query row - 1
       else weight_score sim query row) := by
  refine ⟨weightTotals_fst sim query row, weightTotals_snd sim query row,
    weight_score_eq sim query row, ?_⟩
  rw [weight_score_eq]
  exact pyFloatScore_eq_floor_except _ (weightTotals_fst_le sim query row hsim)

/-- Witness for C2 amended at a concrete conforming similarity and row. -/
theorem claim_C2_witness :
    pyFloatScore ((weightTotals sim100 "q" rowC5).1) =
      (if (weightTotals sim100 "q" rowC5).1 = 522 ∨
          (weightTotals sim100 "q" rowC5).1 = 1026 ∨
          (weightTotals sim100 "q" rowC5).1 = 1044
       then weight_score sim100 "q" rowC5 - 1
       else weight_score sim100 "q" rowC5) :=
  (claim_C2_amended_float_truncation sim100 "q" rowC5
    (fun _ _ => Nat.le_refl 100)).2.2.2

/-- C3: a whitespace-only query is rejected before any scoring: the
handler's outcome does not depend on the similarity function at all, and
whenever a table was uploaded the outcome is the distinct empty-query
warning. -/
theorem claim_C3_empty_query_rejected (sim sim' : String → String → Nat)
    (kbFile : Option (List Row)) (query agent_name ticket_number : String)
    (hq : pyStrip query = "") :
    main_handler sim kbFile query agent_name ticket_number =
      main_handler sim' kbFile query agent_name ticket_number ∧
    ∀ kb, kbFile = some kb →
      main_handler sim kbFile query agent_name ticket_number =
        Response.warnEmptyQuery := by
  cases kbFile with
  | none => exact ⟨rfl, fun kb h => by simp at h⟩
  | some kb' =>
    refine ⟨?_, fun kb _ => ?_⟩ <;> simp [main_handler, hq]

/-- Witness for C3: a blank query with an uploaded (empty) table. -/
theorem claim_C3_witness :
    main_handler simZero (some []) "   " "" "" = Response.warnEmptyQuery :=
  (claim_C3_empty_query_rejected simZero sim100 (some []) "   " "" ""
    (by decide)).2 [] rfl

set_option maxRecDepth 40000 in
/-- C4: rendering the all-empty row gives, for every agent name and ticket
number, the template with every row-derived position a fixed placeholder
("-" or "Any") and the agent/ticket positions the bracketed instructions
when those inputs are empty; in the fully empty case the output is the
concrete `canned` script, which contains every fixed section header
verbatim and no brace character, hence no raw substitution token. -/
theorem claim_C4_empty_row_render :
    (∀ a t, render_script rowEmpty a t =
      some (scriptText (pyOr a "[Your Name]") "-" "-" "-" "-" "-" "Any" "-"
        "-" "-" "-" "-" "-" "-" "-" "-" "-" "-" (pyOr t "[Ticket #]"))) ∧
    render_script rowEmpty "" "" = some canned ∧
    SCRIPT_HEADERS.all (fun h => containsStr canned h) = true ∧
    canned.data.all (fun c => c != '\x7b' && c != '\x7d') = true :=
  ⟨fun _ _ => rfl, by decide, by decide, by decide⟩

/-- Witness for C4 at a concrete agent name and ticket number. -/
theorem claim_C4_witness :
    render_script rowEmpty "Agent" "T1" =
      some (scriptText (pyOr "Agent" "[Your Name]") "-" "-" "-" "-" "-" "Any"
        "-" "-" "-" "-" "-" "-" "-" "-" "-" "-" "-" (pyOr "T1" "[Ticket #]")) :=
  claim_C4_empty_row_render.1 "Agent" "T1"

/-- C5 counterexample: `simC5` conforms to the 0–100 contract and is
maximal on identical strings, yet for the row with `title = keywords = "a"`
and `kb_id = "b"` the row's own title/keywords text `"a"` scores 33 while
the query `"ab"` scores 44: the self-query does not yield the maximum
achievable score.  (The real `token_set_ratio` behaves the same way: a
query whose token set covers several fields scores 100 against each.) -/
theorem claim_C5_counterexample :
    weight_score simC5 "a" rowC5 = 33 ∧ weight_score simC5 "ab" rowC5 = 44 ∧
    weight_score simC5 "a" rowC5 < weight_score simC5 "ab" rowC5 := by
  decide

/-- C5 amended: a query whose similarity is maximal (100) against every
non-empty text attains the maximum achievable weighted score for a row: no
query scores strictly higher.  The row's own title/keywords text need not
be such a query. -/
theorem claim_C5_amended_cover_query_max (sim : String → String → Nat)
    (q0 : String) (row : Row) (hsim : ∀ a b, sim a b ≤ 100)
    (hq0 : ∀ t : String, t ≠ "" → sim q0 t = 100) :
    ∀ query, weight_score sim query row ≤ weight_score sim q0 row := by
  intro query
  rw [weight_score_eq, weight_score_eq]
  apply Nat.div_le_div_right
  apply Nat.mul_le_mul_right
  rw [weightTotals_fst, weightTotals_fst]
  have key : ∀ c : Cell, cellSim sim query c ≤ cellSim sim q0 c := by
    intro c
    cases c with
    | str s =>
      by_cases hs : s = ""
      · simp [cellSim, hs]
      · simp only [cellSim, if_pos hs, ne_eq, hs, not_false_iff, if_true]
        rw [hq0 s hs]
        exact hsim query s
    | nonstr rep t => exact Nat.le_refl _
  have k1 := key row.title
  have k2 := key row.keywords
  have k3 := key row.kb_id
  have k4 := key row.tech_app
  have k5 := key row.category
  have k6 := key row.action
  have k7 := key row.catalog
  have k8 := key row.service_group
  have k9 := key row.probing
  have k10 := key row.steps
  omega

/-- Witness for C5 amended: the constant-100 similarity. -/
theorem claim_C5_witness :
    weight_score sim100 "x" rowC5 ≤ weight_score sim100 "y" rowC5 :=
  claim_C5_amended_cover_query_max sim100 "y" rowC5
    (fun _ _ => Nat.le_refl 100) (fun _ _ => rfl) "x"

/-- C6 counterexample: `match_issue` returns the identical empty list for
an empty table and for a non-empty table whose rows all score below the
minimum, and the handler maps both to the same no-strong-match error: the
matcher does NOT report the two cases distinctly. -/
theorem claim_C6_counterexample :
    match_issue simZero "q" [] = match_issue simZero "q" [rowEmpty] ∧
    main_handler simZero (some []) "q" "" "" = Response.errNoMatch ∧
    main_handler simZero (some [rowEmpty]) "q" "" "" = Response.errNoMatch := by
  decide

/-- C6 amended: whenever every row of the table scores below `MIN_SCORE`
(vacuously so for the empty table), `match_issue` returns the same empty
list, and the handler surfaces the same single no-strong-match error: the
two cases are indistinguishable, not distinct. -/
theorem claim_C6_amended_same_empty_report (sim : String → String → Nat)
    (query : String) (kb : List Row) (agent_name ticket_number : String)
    (hq : pyStrip query ≠ "")
    (hlow : ∀ r ∈ kb, weight_score sim query r < MIN_SCORE) :
    match_issue sim query kb = [] ∧
    main_handler sim (some kb) query agent_name ticket_number =
      Response.errNoMatch := by
  have h1 : scoredOf sim query kb = [] := scoredAux_eq_nil sim query kb 0 hlow
  have h2 : match_issue sim query kb = [] := by
    rw [match_issue, scoredOf] at *
    rw [h1]
    rfl
  refine ⟨h2, ?_⟩
  simp [main_handler, hq, h2]

/-- Witness for C6 amended: one low-scoring row. -/
theorem claim_C6_witness :
    match_issue simZero "qq" [rowEmpty] = [] ∧
    main_handler simZero (some [rowEmpty]) "qq" "" "" = Response.errNoMatch :=
  claim_C6_amended_same_empty_report simZero "qq" [rowEmpty] "" "" (by decide)
    (by decide)

/-- C7 counterexample: for the steps text `"a;b;c"` the code renders
`1) a`, `2) b`, then a BULLET `• c` — not the numbered item `3) c` the
claim describes.  Each item is still on its own line. -/
theorem claim_C7_counterexample :
    stepsBlock "a;b;c" = "1) a\n2) b\n• c" ∧
    spec_numbered_block ["a", "b", "c"] = "1) a\n2) b\n3) c" ∧
    stepsBlock "a;b;c" ≠ spec_numbered_block ["a", "b", "c"] := by
  decide

/-- C7 amended: splitting on `;` and re-joining one item per line holds,
but with these shapes: the probing/urls/required-fields block renders
every item as a `- ` bullet; the steps block numbers only the first two
items `1) `, `2) ` and renders every later item as a `• ` bullet (a
single-item steps text is just `1) item`). -/
theorem claim_C7_amended_blocks :
    (∀ (i : List Char) (is : List (List Char)),
      (∀ j ∈ i :: is, ';' ∉ j) → intercChar [';'] (i :: is) ≠ [] →
      dashBlock ⟨intercChar [';'] (i :: is)⟩ =
        ⟨"- ".data ++ intercChar "\n- ".data (i :: is)⟩) ∧
    (∀ i : List Char, ';' ∉ i → i ≠ [] →
      stepsBlock ⟨i⟩ = ⟨"1) ".data ++ i⟩) ∧
    (∀ (i j : List Char) (is : List (List Char)),
      (∀ k ∈ i :: j :: is, ';' ∉ k) →
      stepsBlock ⟨intercChar [';'] (i :: j :: is)⟩ =
        ⟨"1) ".data ++ i ++ "\n2) ".data ++
          intercChar "\n• ".data (j :: is)⟩) := by
  refine ⟨?_, ?_, ?_⟩
  · intro i is h hne
    rw [dashBlock_mk _ hne, replaceSemiChars_interc _ _ h]
  · intro i hi hne
    rw [stepsBlock_mk i hne, replaceFirstSemiChars_self _ _ hi,
      replaceSemiChars_self _ _ hi]
  · intro i j is h
    have hi : ';' ∉ i := h i (List.mem_cons_self _ _)
    have hrest : ∀ k ∈ j :: is, ';' ∉ k :=
      fun k hk => h k (List.mem_cons_of_mem _ hk)
    have e1 : intercChar [';'] (i :: j :: is) =
        i ++ ';' :: intercChar [';'] (j :: is) := by
      simp [intercChar]
    have hne : intercChar [';'] (i :: j :: is) ≠ [] := by
      rw [e1]
      simp
    have hmix : ';' ∉ i ++ "\n2) ".data := by
      intro hm
      rcases List.mem_append.mp hm with hm' | hm'
      · exact hi hm'
      · revert hm'
        decide
    rw [stepsBlock_mk _ hne, e1, replaceFirstSemiChars_append _ _ _ hi,
      List.append_assoc i _ _, ← List.append_assoc i _ _,
      replaceSemiChars_append _ _ _ hmix, replaceSemiChars_interc _ _ hrest]
    simp [List.append_assoc]

/-- Witness for C7 amended at concrete item lists. -/
theorem claim_C7_witness :
    dashBlock ⟨intercChar [';'] [['a'], ['b']]⟩ =
      ⟨"- ".data ++ intercChar "\n- ".data [['a'], ['b']]⟩ ∧
    stepsBlock ⟨intercChar [';'] [['a'], ['b'], ['c']]⟩ =
      ⟨"1) ".data ++ ['a'] ++ "\n2) ".data ++
        intercChar "\n• ".data [['b'], ['c']]⟩ :=
  ⟨claim_C7_amended_blocks.1 ['a'] [['b']] (by decide) (by decide),
   claim_C7_amended_blocks.2.2 ['a'] ['b'] [['c']] (by decide)⟩

/-- C8: the denominator `max_total` is exactly `1800 = 100 × 18` for every
query and row (empty fields still widen it), so the `max_total == 0`
fallback returning 0 is unreachable — the score is always the quotient —
and for a conforming similarity the score is an integer in `0..100`. -/
theorem claim_C8_denominator_constant (sim : String → String → Nat)
    (query : String) (row : Row) (hsim : ∀ a b, sim a b ≤ 100) :
    (weightTotals sim query row).2 = 1800 ∧
    weight_score sim query row = (weightTotals sim query row).1 * 100 / 1800 ∧
    weight_score sim query row ≤ 100 := by
  refine ⟨weightTotals_snd sim query row, weight_score_eq sim query row, ?_⟩
  have hle : (weightTotals sim query row).1 ≤ 1800 := by
    rw [weightTotals_fst]
    have k1 := cellSim_le_100 sim query row.title hsim
    have k2 := cellSim_le_100 sim query row.keywords hsim
    have k3 := cellSim_le_100 sim query row.kb_id hsim
    have k4 := cellSim_le_100 sim query row.tech_app hsim
    have k5 := cellSim_le_100 sim query row.category hsim
    have k6 := cellSim_le_100 sim query row.action hsim
    have k7 := cellSim_le_100 sim query row.catalog hsim
    have k8 := cellSim_le_100 sim query row.service_group hsim
    have k9 := cellSim_le_100 sim query row.probing hsim
    have k10 := cellSim_le_100 sim query row.steps hsim
    omega
  calc weight_score sim query row
      = (weightTotals sim query row).1 * 100 / 1800 :=
        weight_score_eq sim query row
    _ ≤ 1800 * 100 / 1800 :=
        Nat.div_le_div_right (Nat.mul_le_mul_right _ hle)
    _ = 100 := by norm_num

/-- Witness for C8: the constant-100 similarity on a concrete row. -/
theorem claim_C8_witness :
    (weightTotals sim100 "q" rowEmpty).2 = 1800 ∧
    weight_score sim100 "q" rowEmpty =
      (weightTotals sim100 "q" rowEmpty).1 * 100 / 1800 ∧
    weight_score sim100 "q" rowEmpty ≤ 100 :=
  claim_C8_denominator_constant sim100 "q" rowEmpty
    (fun _ _ => Nat.le_refl 100)

/-- C9: a row whose ten scored fields are all empty strings or non-string
values scores 0 for every query and similarity, and therefore never
appears in a `match_issue` result (the threshold 70 is positive). -/
theorem claim_C9_empty_row_scores_zero (sim : String → String → Nat)
    (query : String) (row : Row) (hrow : scoredEmptyB row = true) :
    weight_score sim query row = 0 ∧
    ∀ kb p, p ∈ match_issue sim query kb → kb.get? p.1 = some row → False := by
  simp only [scoredEmptyB, Bool.and_eq_true] at hrow
  obtain ⟨⟨⟨⟨⟨⟨⟨⟨⟨h1, h2⟩, h3⟩, h4⟩, h5⟩, h6⟩, h7⟩, h8⟩, h9⟩, h10⟩ := hrow
  have hz : weight_score sim query row = 0 := by
    rw [weight_score_eq, weightTotals_fst, cellSim_of_empty sim query _ h1,
      cellSim_of_empty sim query _ h2, cellSim_of_empty sim query _ h3,
      cellSim_of_empty sim query _ h4, cellSim_of_empty sim query _ h5,
      cellSim_of_empty sim query _ h6, cellSim_of_empty sim query _ h7,
      cellSim_of_empty sim query _ h8, cellSim_of_empty sim query _ h9,
      cellSim_of_empty sim query _ h10]
  refine ⟨hz, fun kb p hp hget => ?_⟩
  have hp1 : p ∈ sortDesc (scoredOf sim query kb) :=
    (List.take_sublist _ _).subset hp
  have hp2 : p ∈ scoredAux sim query 0 kb := mem_sortDesc hp1
  have hge := scoredAux_score_ge sim query kb 0 p hp2
  obtain ⟨k, r, hk, hidx, hsc⟩ := scoredAux_mem_get sim query kb 0 p hp2
  have hk' : k = p.1 := by omega
  subst hk'
  rw [hk] at hget
  have hr : r = row := by
    injection hget
  subst hr
  rw [hz] at hsc
  rw [hsc] at hge
  exact absurd hge (by decide)

/-- Witness for C9: the all-empty row scores 0. -/
theorem claim_C9_witness :
    weight_score simZero "q" rowEmpty = 0 :=
  (claim_C9_empty_row_scores_zero simZero "q" rowEmpty (by decide)).1

/-- C10: `weight_score`, `match_issue` and `render_script` are
deterministic: equal queries, tables, rows, agent names and ticket numbers
give equal scores, match lists and scripts.  (These three functions are
pure in the source; the only time-dependent value of the pipeline, the
`matched_at` timestamp, is added outside them, in the metadata view.) -/
theorem claim_C10_deterministic (sim : String → String → Nat)
    (q q' : String) (kb kb' : List Row) (row row' : Row)
    (a a' t t' : String) (hq : q = q') (hkb : kb = kb') (hrow : row = row')
    (ha : a = a') (ht : t = t') :
    weight_score sim q row = weight_score sim q' row' ∧
    match_issue sim q kb = match_issue sim q' kb' ∧
    render_script row a t = render_script row' a' t' := by
  subst hq
  subst hkb
  subst hrow
  subst ha
  subst ht
  exact ⟨rfl, rfl, rfl⟩

/-- Witness for C10 at concrete equal inputs. -/
theorem claim_C10_witness :
    weight_score simZero "q" rowEmpty = weight_score simZero "q" rowEmpty ∧
    match_issue simZero "q" [rowEmpty] = match_issue simZero "q" [rowEmpty] ∧
    render_script rowEmpty "a" "t" = render_script rowEmpty "a" "t" :=
  claim_C10_deterministic simZero "q" "q" [rowEmpty] [rowEmpty] rowEmpty
    rowEmpty "a" "a" "t" "t" rfl rfl rfl rfl rfl

end ScriptBuilder
